/-
  Verification of the CropOptimization-CUMCM2024 planting-eligibility and
  model-building logic.

  Shallow embedding of the three optimizer variants:
    - Question1_modeling.py  (base variant,   class CorrectedCropOptimizer)
    - Question2_modeling.py  (strict variant, class Q2Optimizer)
    - Question3_modeling.py  (advanced variant, class AdvancedCropOptimizer)

  Python strings are Lean Strings; Python floats are modelled as rationals
  (decimal literals such as 0.05 become 1/20); Python dicts keyed by ids are
  association lists; numpy uniform draws are modelled by a unit-sample stream
  u : Nat -> Rat together with lo + (hi - lo) * u i.  Display rounding
  (round(x, n)) applied to output cells in the Python extraction code is
  elided: the emitted rows carry the exact computed quantities.
-/
import Mathlib

/- Batteries marks the rational arithmetic operations irreducible; restore
   reducibility locally so that concrete dataset computations evaluate. -/
attribute [local semireducible] Rat.mul Rat.add Rat.sub Rat.inv

/-! ### Python string helpers: `in` (substring) and `str.strip()` -/

/-- Does the pattern occur at the head of the text?  (helper for substring). -/
def leadMatch : List Char → List Char → Bool
  | [], _ => true
  | _ :: _, [] => false
  | a :: as, b :: bs => a == b && leadMatch as bs

/-- Does the pattern occur anywhere in the text?  Models Python `pat in s`. -/
def hasSubL (pat : List Char) : List Char → Bool
  | [] => pat.isEmpty
  | b :: bs => leadMatch pat (b :: bs) || hasSubL pat bs

/-- Python `pat in s` on strings. -/
def hasSubstr (s pat : String) : Bool := hasSubL pat.data s.data

/-- The whitespace characters removed by Python `str.strip()`. -/
def pyWsChars : List Char := [' ', '\t', '\n', '\r', Char.ofNat 11, Char.ofNat 12]

/-- Is this a Python-whitespace character? -/
def isPyWs (c : Char) : Bool := pyWsChars.contains c

/-- Python `str.strip()` on the underlying character list. -/
def pyStripL (l : List Char) : List Char :=
  ((l.dropWhile isPyWs).reverse.dropWhile isPyWs).reverse

/-- Python `str.strip()`. -/
def pyStrip (s : String) : String := String.mk (pyStripL s.data)

/-- Python `min` on two rationals, written so that it evaluates inside the
    kernel. -/
def ratMin (a b : ℚ) : ℚ := if a ≤ b then a else b

/-- Python `max` on two rationals, written so that it evaluates inside the
    kernel. -/
def ratMax (a b : ℚ) : ℚ := if a ≤ b then b else a

/-! ### Crop records and the classification flags of the three variants -/

/-- A crop as read from the 作物信息 sheet: name, type string, legume flag. -/
structure CropRaw where
  name : String
  ctype : String
  isLegume : Bool
deriving DecidableEq

/-- The winter vegetables 大白菜/白萝卜/红萝卜 (shared literal of all variants). -/
def winterVegNames : List String := ["大白菜", "白萝卜", "红萝卜"]

/-- The mushrooms 香菇/羊肚菌/白灵菇/榆黄菇 (shared literal of all variants). -/
def mushroomNames : List String := ["香菇", "羊肚菌", "白灵菇", "榆黄菇"]

/-- Q1 `is_grain`: 粮食 in type and not rice (Question1_modeling.py line 44). -/
def q1IsGrain (c : CropRaw) : Bool := hasSubstr c.ctype "粮食" && c.name != "水稻"

/-- Q1 `is_rice` (line 45). -/
def q1IsRice (c : CropRaw) : Bool := c.name == "水稻"

/-- Q1 `is_vegetable` (line 46). -/
def q1IsVegetable (c : CropRaw) : Bool := hasSubstr c.ctype "蔬菜"

/-- Q1 `is_mushroom` (line 47). -/
def q1IsMushroom (c : CropRaw) : Bool := mushroomNames.contains c.name

/-- Q1 `is_winter_vegetable` (line 48). -/
def q1IsWinterVeg (c : CropRaw) : Bool := winterVegNames.contains c.name

/-- Q1 `is_regular_vegetable` (line 60). -/
def q1IsRegularVeg (c : CropRaw) : Bool := q1IsVegetable c && !(q1IsWinterVeg c)

/-- Q1 `_is_valid_planting_combination` (Question1_modeling.py lines 121-145). -/
def q1Valid (landType season : String) (c : CropRaw) : Bool :=
  if (["平旱地", "梯田", "山坡地"] : List String).contains landType then
    season == "单季" && q1IsGrain c
  else if landType == "水浇地" then
    if season == "单季" then q1IsRice c
    else if season == "第一季" then q1IsRegularVeg c
    else if season == "第二季" then q1IsWinterVeg c
    else false
  else if (["普通大棚", "普通大棚 "] : List String).contains landType then
    if season == "第一季" then q1IsRegularVeg c
    else if season == "第二季" then q1IsMushroom c
    else false
  else if landType == "智慧大棚" then
    if (["第一季", "第二季"] : List String).contains season then q1IsRegularVeg c
    else false
  else false

/-- Q2 `is_rice` (Question2_modeling.py line 78). -/
def q2IsRice (c : CropRaw) : Bool := c.name == "水稻"

/-- Q2 `is_grain_non_rice` (lines 81-83). -/
def q2IsGrainNonRice (c : CropRaw) : Bool := hasSubstr c.ctype "粮食" && c.name != "水稻"

/-- Q2 `is_winter_vegetable` (line 86). -/
def q2IsWinterVeg (c : CropRaw) : Bool := winterVegNames.contains c.name

/-- Q2 `is_regular_vegetable` (lines 89-92). -/
def q2IsRegularVeg (c : CropRaw) : Bool :=
  hasSubstr c.ctype "蔬菜" && !(winterVegNames.contains c.name)

/-- Q2 `is_mushroom` (line 95). -/
def q2IsMushroom (c : CropRaw) : Bool := mushroomNames.contains c.name

/-- Q2 `_is_valid_strict_combination` (Question2_modeling.py lines 122-155). -/
def q2Valid (landType season : String) (c : CropRaw) : Bool :=
  if (["平旱地", "梯田", "山坡地"] : List String).contains landType then
    season == "单季" && q2IsGrainNonRice c
  else if landType == "水浇地" then
    if season == "单季" then q2IsRice c
    else if season == "第一季" then q2IsRegularVeg c
    else if season == "第二季" then q2IsWinterVeg c
    else false
  else if (["普通大棚", "普通大棚 "] : List String).contains landType then
    if season == "第一季" then q2IsRegularVeg c
    else if season == "第二季" then q2IsMushroom c
    else false
  else if landType == "智慧大棚" then
    (["第一季", "第二季"] : List String).contains season && q2IsRegularVeg c
  else false

/-- Q3 `_classify_crop_category` (Question3_modeling.py lines 70-88). -/
def q3Category (c : CropRaw) : String :=
  if c.name == "水稻" then "rice"
  else if hasSubstr c.ctype "粮食" && c.name != "水稻" then "grain"
  else if winterVegNames.contains c.name then "winter_vegetable"
  else if mushroomNames.contains c.name then "mushroom"
  else if hasSubstr c.ctype "蔬菜" && !(winterVegNames.contains c.name) then "vegetable"
  else "other"

/-- Q3 `_is_valid_combination` (Question3_modeling.py lines 241-282). -/
def q3Valid (landType season : String) (c : CropRaw) : Bool :=
  if (["平旱地", "梯田", "山坡地"] : List String).contains landType then
    season == "单季" && q3Category c == "grain" && c.name != "水稻"
  else if landType == "水浇地" then
    if season == "单季" then c.name == "水稻"
    else if season == "第一季" then
      q3Category c == "vegetable" && !(winterVegNames.contains c.name)
    else if season == "第二季" then winterVegNames.contains c.name
    else false
  else if (["普通大棚", "普通大棚 "] : List String).contains landType then
    if season == "第一季" then
      q3Category c == "vegetable" && !(winterVegNames.contains c.name)
    else if season == "第二季" then q3Category c == "mushroom"
    else false
  else if landType == "智慧大棚" then
    (["第一季", "第二季"] : List String).contains season &&
      q3Category c == "vegetable" && !(winterVegNames.contains c.name)
  else false

/-! ### Option catalogs (`_process_data` / `_classify_crops_strictly` /
    `_get_valid_planting_options`) -/

/-- A row of the 作物统计数据 sheet. -/
structure StatRow where
  landType : String
  season : String
  cropId : Nat
  yieldPerMu : ℚ
  costPerMu : ℚ
  priceAvg : ℚ
  profitPerMu : ℚ
deriving DecidableEq

/-- A viable planting option kept by a catalog filter. -/
structure PlantOption where
  landType : String
  season : String
  cropId : Nat
  cropName : String
  yieldPerMu : ℚ
  costPerMu : ℚ
  priceAvg : ℚ
  profitPerMu : ℚ
deriving DecidableEq

/-- The crop dictionary `self.crops`, keyed by 作物编号. -/
abbrev CropTable := List (Nat × CropRaw)

/-- The option record stored by Q1 for a kept statistic row (lines 82-92). -/
def q1MkOpt (r : StatRow) (c : CropRaw) : PlantOption :=
  ⟨r.landType, r.season, r.cropId, c.name, r.yieldPerMu, r.costPerMu, r.priceAvg, r.profitPerMu⟩

/-- Q1 `_process_data` treatment of one statistic row (lines 71-92): skip when
    the crop id is unknown, keep when the raw (unstripped) land type, season
    and crop pass `_is_valid_planting_combination`. -/
def q1OptionOfRow (crops : CropTable) (r : StatRow) : Option PlantOption :=
  match List.lookup r.cropId crops with
  | none => none
  | some c => if q1Valid r.landType r.season c then some (q1MkOpt r c) else none

/-- Q1 `valid_planting_options` (lines 69-92). -/
def q1Catalog (crops : CropTable) (rows : List StatRow) : List PlantOption :=
  rows.filterMap (q1OptionOfRow crops)

/-- The option record stored by Q2 for a kept statistic row (lines 106-115):
    the stored land type is the stripped one. -/
def q2MkOpt (r : StatRow) (c : CropRaw) : PlantOption :=
  ⟨pyStrip r.landType, r.season, r.cropId, c.name, r.yieldPerMu, r.costPerMu, r.priceAvg,
    r.profitPerMu⟩

/-- Q2 `_classify_crops_strictly` treatment of one statistic row (lines
    100-115): strip the land type, keep when the crop id is known and
    `_is_valid_strict_combination` passes. -/
def q2OptionOfRow (crops : CropTable) (r : StatRow) : Option PlantOption :=
  match List.lookup r.cropId crops with
  | none => none
  | some c =>
      if q2Valid (pyStrip r.landType) r.season c then some (q2MkOpt r c) else none

/-- Q2 `valid_options` (lines 98-115). -/
def q2Catalog (crops : CropTable) (rows : List StatRow) : List PlantOption :=
  rows.filterMap (q2OptionOfRow crops)

/-- The option record stored by Q3 for a kept statistic row (lines 100-109). -/
def q3MkOpt (r : StatRow) (c : CropRaw) : PlantOption :=
  ⟨pyStrip r.landType, r.season, r.cropId, c.name, r.yieldPerMu, r.costPerMu, r.priceAvg,
    r.profitPerMu⟩

/-- Q3 `_get_valid_planting_options` treatment of one statistic row (lines
    94-109). -/
def q3OptionOfRow (crops : CropTable) (r : StatRow) : Option PlantOption :=
  match List.lookup r.cropId crops with
  | none => none
  | some c =>
      if q3Valid (pyStrip r.landType) r.season c then some (q3MkOpt r c) else none

/-- Q3 `valid_options` (lines 90-109). -/
def q3Catalog (crops : CropTable) (rows : List StatRow) : List PlantOption :=
  rows.filterMap (q3OptionOfRow crops)

/-! #### Row-level characterizations of the three catalog filters -/

theorem q1OptionOfRow_eq_some (crops : CropTable) (r : StatRow) (o : PlantOption) :
    q1OptionOfRow crops r = some o ↔
      ∃ c, List.lookup r.cropId crops = some c ∧
        q1Valid r.landType r.season c = true ∧ o = q1MkOpt r c := by
  unfold q1OptionOfRow
  cases h : List.lookup r.cropId crops with
  | none => simp
  | some c =>
      dsimp only
      by_cases hv : q1Valid r.landType r.season c = true
      · rw [if_pos hv]
        simp only [Option.some.injEq]
        constructor
        · rintro rfl
          exact ⟨c, rfl, hv, rfl⟩
        · rintro ⟨c2, hc2, hv2, ho⟩
          subst hc2
          exact ho.symm
      · rw [if_neg hv]
        constructor
        · rintro h2
          exact absurd h2 (by simp)
        · rintro ⟨c2, hc2, hv2, ho⟩
          obtain rfl := Option.some.inj hc2
          exact absurd hv2 hv

theorem q2OptionOfRow_eq_some (crops : CropTable) (r : StatRow) (o : PlantOption) :
    q2OptionOfRow crops r = some o ↔
      ∃ c, List.lookup r.cropId crops = some c ∧
        q2Valid (pyStrip r.landType) r.season c = true ∧ o = q2MkOpt r c := by
  unfold q2OptionOfRow
  cases h : List.lookup r.cropId crops with
  | none => simp
  | some c =>
      dsimp only
      by_cases hv : q2Valid (pyStrip r.landType) r.season c = true
      · rw [if_pos hv]
        simp only [Option.some.injEq]
        constructor
        · rintro rfl
          exact ⟨c, rfl, hv, rfl⟩
        · rintro ⟨c2, hc2, hv2, ho⟩
          subst hc2
          exact ho.symm
      · rw [if_neg hv]
        constructor
        · rintro h2
          exact absurd h2 (by simp)
        · rintro ⟨c2, hc2, hv2, ho⟩
          obtain rfl := Option.some.inj hc2
          exact absurd hv2 hv

theorem q3OptionOfRow_eq_some (crops : CropTable) (r : StatRow) (o : PlantOption) :
    q3OptionOfRow crops r = some o ↔
      ∃ c, List.lookup r.cropId crops = some c ∧
        q3Valid (pyStrip r.landType) r.season c = true ∧ o = q3MkOpt r c := by
  unfold q3OptionOfRow
  cases h : List.lookup r.cropId crops with
  | none => simp
  | some c =>
      dsimp only
      by_cases hv : q3Valid (pyStrip r.landType) r.season c = true
      · rw [if_pos hv]
        simp only [Option.some.injEq]
        constructor
        · rintro rfl
          exact ⟨c, rfl, hv, rfl⟩
        · rintro ⟨c2, hc2, hv2, ho⟩
          subst hc2
          exact ho.symm
      · rw [if_neg hv]
        constructor
        · rintro h2
          exact absurd h2 (by simp)
        · rintro ⟨c2, hc2, hv2, ho⟩
          obtain rfl := Option.some.inj hc2
          exact absurd hv2 hv

/-- C1.  Catalog soundness in each of the three variants: an option enters the
    catalog iff its statistic row's crop id is known and the eligibility
    predicate accepts the (land type, season, crop) triple that the kept
    option stores (the raw triple in the base variant, the stripped one in
    the strict and advanced variants); in particular the predicate holds of
    every stored option's own triple. -/
theorem catalog_soundness_all_variants (crops : CropTable) (rows : List StatRow)
    (o : PlantOption) :
    (o ∈ q1Catalog crops rows ↔
      ∃ r ∈ rows, ∃ c, List.lookup r.cropId crops = some c ∧
        q1Valid r.landType r.season c = true ∧ o = q1MkOpt r c) ∧
    (o ∈ q2Catalog crops rows ↔
      ∃ r ∈ rows, ∃ c, List.lookup r.cropId crops = some c ∧
        q2Valid (pyStrip r.landType) r.season c = true ∧ o = q2MkOpt r c) ∧
    (o ∈ q3Catalog crops rows ↔
      ∃ r ∈ rows, ∃ c, List.lookup r.cropId crops = some c ∧
        q3Valid (pyStrip r.landType) r.season c = true ∧ o = q3MkOpt r c) := by
  refine ⟨?_, ?_, ?_⟩
  · simp only [q1Catalog, List.mem_filterMap, q1OptionOfRow_eq_some]
  · simp only [q2Catalog, List.mem_filterMap, q2OptionOfRow_eq_some]
  · simp only [q3Catalog, List.mem_filterMap, q3OptionOfRow_eq_some]

/-! ### C2: the irrigated-land (水浇地) eligibility rule -/

/-- A crop whose name/type combination is classified coherently: if its type
    string mentions 蔬菜 then it is not named 水稻, its type does not also
    mention 粮食, and it is not one of the mushroom names.  Every crop of the
    competition dataset satisfies this; it is exactly the condition under
    which the per-variant classification flags and the category tagger of the
    advanced variant agree. -/
def cropCoherent (c : CropRaw) : Bool :=
  !(hasSubstr c.ctype "蔬菜") ||
    (c.name != "水稻" && !(hasSubstr c.ctype "粮食") && !(mushroomNames.contains c.name))

/-- The irrigated-land eligibility rule as the spec states it (§4.1):
    season=single ⇒ category rice; season=first ⇒ category vegetable
    (which excludes winter vegetables); season=second ⇒ one of the three
    winter vegetables. -/
def specIrrigatedEligible (season : String) (c : CropRaw) : Bool :=
  (season == "单季" && q3Category c == "rice") ||
  (season == "第一季" && q3Category c == "vegetable") ||
  (season == "第二季" && winterVegNames.contains c.name)

/-- C2.  For every coherently classified crop and every season label, the
    irrigated-land (水浇地) decision of all three variants' predicates equals
    the spec's rule: single season iff rice, first season iff non-winter
    vegetable (category vegetable), second season iff winter vegetable. -/
theorem irrigated_rule_all_variants (s : String) (c : CropRaw)
    (hc : cropCoherent c = true) :
    q1Valid "水浇地" s c = specIrrigatedEligible s c ∧
    q2Valid "水浇地" s c = specIrrigatedEligible s c ∧
    q3Valid "水浇地" s c = specIrrigatedEligible s c := by
  by_cases hs1 : s = "单季"
  · subst hs1
    refine ⟨?_, ?_, ?_⟩ <;>
      (cases hr : (c.name == "水稻") <;> cases hg : hasSubstr c.ctype "粮食" <;>
        cases hv : hasSubstr c.ctype "蔬菜" <;> cases hw : winterVegNames.contains c.name <;>
        cases hm : mushroomNames.contains c.name <;>
        simp_all [q1Valid, q2Valid, q3Valid, specIrrigatedEligible, q3Category,
          q1IsRice, q1IsGrain, q1IsVegetable, q1IsMushroom, q1IsWinterVeg, q1IsRegularVeg,
          q2IsRice, q2IsGrainNonRice, q2IsWinterVeg, q2IsRegularVeg, q2IsMushroom,
          cropCoherent])
  · by_cases hs2 : s = "第一季"
    · subst hs2
      refine ⟨?_, ?_, ?_⟩ <;>
        (cases hr : (c.name == "水稻") <;> cases hg : hasSubstr c.ctype "粮食" <;>
          cases hv : hasSubstr c.ctype "蔬菜" <;> cases hw : winterVegNames.contains c.name <;>
          cases hm : mushroomNames.contains c.name <;>
          simp_all [q1Valid, q2Valid, q3Valid, specIrrigatedEligible, q3Category,
            q1IsRice, q1IsGrain, q1IsVegetable, q1IsMushroom, q1IsWinterVeg, q1IsRegularVeg,
            q2IsRice, q2IsGrainNonRice, q2IsWinterVeg, q2IsRegularVeg, q2IsMushroom,
            cropCoherent])
    · by_cases hs3 : s = "第二季"
      · subst hs3
        refine ⟨?_, ?_, ?_⟩ <;>
          (cases hr : (c.name == "水稻") <;> cases hg : hasSubstr c.ctype "粮食" <;>
            cases hv : hasSubstr c.ctype "蔬菜" <;> cases hw : winterVegNames.contains c.name <;>
            cases hm : mushroomNames.contains c.name <;>
            simp_all [q1Valid, q2Valid, q3Valid, specIrrigatedEligible, q3Category,
              q1IsRice, q1IsGrain, q1IsVegetable, q1IsMushroom, q1IsWinterVeg, q1IsRegularVeg,
              q2IsRice, q2IsGrainNonRice, q2IsWinterVeg, q2IsRegularVeg, q2IsMushroom,
              cropCoherent])
      · have e1 : (s == "单季") = false := by simpa using hs1
        have e2 : (s == "第一季") = false := by simpa using hs2
        have e3 : (s == "第二季") = false := by simpa using hs3
        refine ⟨?_, ?_, ?_⟩ <;>
          simp [q1Valid, q2Valid, q3Valid, specIrrigatedEligible, e1, e2, e3]

/-- Witness for C2 at a concrete coherent crop. -/
theorem irrigated_rule_witness :
    cropCoherent ⟨"黄瓜", "蔬菜", false⟩ = true ∧
    q1Valid "水浇地" "第一季" ⟨"黄瓜", "蔬菜", false⟩ =
      specIrrigatedEligible "第一季" ⟨"黄瓜", "蔬菜", false⟩ :=
  ⟨by decide, (irrigated_rule_all_variants "第一季" ⟨"黄瓜", "蔬菜", false⟩ (by decide)).1⟩

/-! ### C3: whitespace handling in land-type labels -/

/-- The head of a non-trivial `dropWhile` result fails the predicate. -/
theorem dropWhile_head_not (p : Char → Bool) :
    ∀ (l : List Char) (a : Char) (t : List Char), l.dropWhile p = a :: t → p a = false := by
  intro l
  induction l with
  | nil => intro a t h; simp [List.dropWhile] at h
  | cons b bs ih =>
      intro a t h
      by_cases hb : p b = true
      · rw [List.dropWhile_cons, if_pos hb] at h
        exact ih a t h
      · rw [List.dropWhile_cons, if_neg hb] at h
        cases h
        simpa using hb

/-- Python `strip` on character lists is idempotent. -/
theorem pyStripL_idem (l : List Char) : pyStripL (pyStripL l) = pyStripL l := by
  have hds : ∀ m : List Char, pyStripL m = List.rdropWhile isPyWs (m.dropWhile isPyWs) :=
    fun _ => rfl
  rw [hds, hds]
  have h1 : (List.rdropWhile isPyWs (l.dropWhile isPyWs)).dropWhile isPyWs
      = List.rdropWhile isPyWs (l.dropWhile isPyWs) := by
    cases hR : List.rdropWhile isPyWs (l.dropWhile isPyWs) with
    | nil => simp
    | cons a r =>
        have hpre : List.rdropWhile isPyWs (l.dropWhile isPyWs) <+: l.dropWhile isPyWs :=
          List.rdropWhile_prefix _ _
        rw [hR] at hpre
        obtain ⟨t, ht⟩ := hpre
        have hA2 : l.dropWhile isPyWs = a :: (r ++ t) := by rw [← ht]; rfl
        have ha : isPyWs a = false := dropWhile_head_not isPyWs l a (r ++ t) hA2
        simp [List.dropWhile_cons, ha]
  rw [h1, List.rdropWhile_idempotent]

/-- Python `strip` is idempotent. -/
theorem pyStrip_idem (s : String) : pyStrip (pyStrip s) = pyStrip s :=
  congrArg String.mk (pyStripL_idem s.data)

/-- C3 counterexample.  In the base variant no stripping happens and the
    predicate special-cases only the ordinary-greenhouse label: an irrigated
    or smart-greenhouse label with a trailing space is rejected although its
    stripped form is accepted, refuting that every variant normalizes
    whitespace before the eligibility comparison. -/
theorem whitespace_counterexample :
    q1Valid "水浇地 " "单季" ⟨"水稻", "粮食", false⟩ = false ∧
    q1Valid "水浇地" "单季" ⟨"水稻", "粮食", false⟩ = true ∧
    pyStrip "水浇地 " = "水浇地" ∧
    q1Valid "智慧大棚 " "第一季" ⟨"黄瓜", "蔬菜", false⟩ = false ∧
    q1Valid "智慧大棚" "第一季" ⟨"黄瓜", "蔬菜", false⟩ = true := by decide

/-- C3 amended.  The strict and advanced variants strip land-type labels when
    building the catalog, so their row decisions agree with the decision on
    the stripped label; the base variant never strips, and its predicate is
    whitespace-insensitive only for the hard-coded ordinary-greenhouse label
    with one trailing space (普通大棚 ). -/
theorem whitespace_normalization_amended :
    (∀ (s : String) (c : CropRaw), q1Valid "普通大棚 " s c = q1Valid "普通大棚" s c) ∧
    (∀ (crops : CropTable) (r : StatRow),
      q2OptionOfRow crops r =
        q2OptionOfRow crops
          ⟨pyStrip r.landType, r.season, r.cropId, r.yieldPerMu, r.costPerMu,
            r.priceAvg, r.profitPerMu⟩) ∧
    (∀ (crops : CropTable) (r : StatRow),
      q3OptionOfRow crops r =
        q3OptionOfRow crops
          ⟨pyStrip r.landType, r.season, r.cropId, r.yieldPerMu, r.costPerMu,
            r.priceAvg, r.profitPerMu⟩) := by
  refine ⟨fun s c => rfl, fun crops r => ?_, fun crops r => ?_⟩
  · dsimp only [q2OptionOfRow, q2MkOpt]
    rw [pyStrip_idem]
  · dsimp only [q3OptionOfRow, q3MkOpt]
    rw [pyStrip_idem]

/-! ### C4: legume rotation constraints of the three builders -/

/-- Parcel data from the 地块信息 sheet. -/
structure LandInfo where
  ltype : String
  area : ℚ
deriving DecidableEq

/-- The parcel dictionary `self.lands`, keyed by 地块名称. -/
abbrev LandTable := List (String × LandInfo)

/-- A decision-variable key (land name, year, season, crop id). -/
abbrev VarKey := String × Nat × String × Nat

/-- The 2024-2030 horizon `years = list(range(2024, 2031))`. -/
def modelYears : List Nat := [2024, 2025, 2026, 2027, 2028, 2029, 2030]

/-- Python `crop_id in self.crops and self.crops[crop_id]['is_legume']`. -/
def isLegumeCrop (crops : CropTable) (cid : Nat) : Bool :=
  match List.lookup cid crops with
  | some c => c.isLegume
  | none => false

/-- The legume decision variables collected for one parcel over a year window
    (the `legume_vars` lists of Question1 lines 343-349, Question2 lines
    463-481, Question3 lines 780-799). -/
def legumeVarsIn (keys : List VarKey) (crops : CropTable) (land : String)
    (ys : List Nat) : List VarKey :=
  ys.flatMap (fun y =>
    keys.filter (fun k => k.1 == land && k.2.1 == y && isLegumeCrop crops k.2.2.2))

/-- The decision-variable keys created by the builders (Question1 lines
    156-163, Question2 lines 261-268, Question3 lines 461-468): one per
    (parcel, year, option whose land type matches the parcel). -/
def varKeysFor (lands : LandTable) (options : List PlantOption) : List VarKey :=
  lands.flatMap (fun p => modelYears.flatMap (fun y =>
    (options.filter (fun o => o.landType == p.2.ltype)).map
      (fun o => (p.1, y, o.season, o.cropId))))

/-- A generated legume-rotation constraint: the sum of the named variables
    must be at least `minArea`. -/
structure LegumeCon where
  land : String
  vars : List VarKey
  minArea : ℚ
deriving DecidableEq

/-- Q1 legume-rotation constraints (Question1_modeling.py lines 336-354):
    only parcels without 2023 legume history, only the 2024-2026 window,
    minimum `max(0.1, area * 0.05)`. -/
def q1LegumeCons (lands : LandTable) (keys : List VarKey) (crops : CropTable)
    (hist : List String) : List LegumeCon :=
  lands.filterMap (fun p =>
    if hist.contains p.1 then none
    else if (legumeVarsIn keys crops p.1 [2024, 2025, 2026]).isEmpty then none
    else some ⟨p.1, legumeVarsIn keys crops p.1 [2024, 2025, 2026],
      ratMax (1/10) (p.2.area * (1/20))⟩)

/-- Q2 legume-rotation constraints (Question2_modeling.py lines 458-485):
    per parcel, an early-window (2024-2026) constraint when the parcel lacks
    2023 legume history, and a late-window (2027-2029) constraint for every
    parcel, both with minimum 0.1 mu. -/
def q2LegumeCons (lands : LandTable) (keys : List VarKey) (crops : CropTable)
    (hist : List String) : List LegumeCon :=
  lands.flatMap (fun p =>
    (if hist.contains p.1 then []
     else if (legumeVarsIn keys crops p.1 [2024, 2025, 2026]).isEmpty then []
     else [⟨p.1, legumeVarsIn keys crops p.1 [2024, 2025, 2026], 1/10⟩]) ++
    (if (legumeVarsIn keys crops p.1 [2027, 2028, 2029]).isEmpty then []
     else [⟨p.1, legumeVarsIn keys crops p.1 [2027, 2028, 2029], 1/10⟩]))

/-- Q3 legume-rotation constraints (Question3_modeling.py lines 777-803):
    early and late windows for every parcel, ignoring 2023 history, with
    minimum 0.2 mu. -/
def q3LegumeCons (lands : LandTable) (keys : List VarKey) (crops : CropTable) :
    List LegumeCon :=
  lands.flatMap (fun p =>
    (if (legumeVarsIn keys crops p.1 [2024, 2025, 2026]).isEmpty then []
     else [⟨p.1, legumeVarsIn keys crops p.1 [2024, 2025, 2026], 1/5⟩]) ++
    (if (legumeVarsIn keys crops p.1 [2027, 2028, 2029]).isEmpty then []
     else [⟨p.1, legumeVarsIn keys crops p.1 [2027, 2028, 2029], 1/5⟩]))

/-- Every variable named by `legumeVarsIn` carries a year of the window. -/
theorem legumeVarsIn_year_mem (keys : List VarKey) (crops : CropTable) (land : String)
    (ys : List Nat) (k : VarKey) (hk : k ∈ legumeVarsIn keys crops land ys) :
    k.2.1 ∈ ys := by
  unfold legumeVarsIn at hk
  rw [List.mem_flatMap] at hk
  obtain ⟨y, hy, hk2⟩ := hk
  rw [List.mem_filter] at hk2
  obtain ⟨-, hcond⟩ := hk2
  simp only [Bool.and_eq_true] at hcond
  obtain ⟨⟨-, h4⟩, -⟩ := hcond
  have hy2 : k.2.1 = y := by simpa using h4
  rw [hy2]
  exact hy

/-- A small dataset: one 平旱地 parcel and one legume grain crop, eligible in
    the single season.  It makes legume variables available in every year of
    the horizon. -/
def demoCrops : CropTable := [(1, ⟨"黄豆", "粮食（豆类）", true⟩)]

/-- The single demo parcel. -/
def demoLands : LandTable := [("A1", ⟨"平旱地", 100⟩)]

/-- The single demo statistic row. -/
def demoRows : List StatRow := [⟨"平旱地", "单季", 1, 400, 500, 3, 700⟩]

/-- The demo decision-variable keys (one per year). -/
def demoKeys : List VarKey := varKeysFor demoLands (q1Catalog demoCrops demoRows)

/-- C4 counterexample.  On the demo dataset the base variant generates a
    single legume constraint, confined to 2024-2026, and no constraint at all
    over the 2027-2029 window even though legume variables exist there, while
    the strict variant does generate a late-window constraint: the claimed
    recurring (years 4-6) rotation requirement is absent from the base
    variant. -/
theorem legume_late_window_counterexample :
    ((q1LegumeCons demoLands demoKeys demoCrops []).all
        (fun con => con.vars.all (fun k => decide (k.2.1 ≤ 2026)))) = true ∧
    (q1LegumeCons demoLands demoKeys demoCrops []).length = 1 ∧
    legumeVarsIn demoKeys demoCrops "A1" [2027, 2028, 2029] ≠ [] ∧
    ((q2LegumeCons demoLands demoKeys demoCrops []).any
        (fun con => con.vars.any (fun k => decide (2027 ≤ k.2.1)))) = true := by decide

/-- C4 amended.  The strict and advanced builders constrain every parcel that
    has legume variables in 2027-2029 to plant at least 0.1 mu (strict) resp.
    0.2 mu (advanced) of legumes in that late window, regardless of 2023
    history; the base builder generates legume constraints only over
    2024-2026 (and only for parcels lacking 2023 legume history). -/
theorem legume_rotation_amended :
    (∀ (lands : LandTable) (keys : List VarKey) (crops : CropTable) (hist : List String)
        (p : String × LandInfo), p ∈ lands →
        legumeVarsIn keys crops p.1 [2027, 2028, 2029] ≠ [] →
        (∃ con ∈ q2LegumeCons lands keys crops hist,
            con.land = p.1 ∧
            con.vars = legumeVarsIn keys crops p.1 [2027, 2028, 2029] ∧
            con.minArea = 1/10) ∧
        (∃ con ∈ q3LegumeCons lands keys crops,
            con.land = p.1 ∧
            con.vars = legumeVarsIn keys crops p.1 [2027, 2028, 2029] ∧
            con.minArea = 1/5)) ∧
    (∀ (lands : LandTable) (keys : List VarKey) (crops : CropTable) (hist : List String)
        (con : LegumeCon), con ∈ q1LegumeCons lands keys crops hist →
        ∀ k ∈ con.vars, k.2.1 ∈ [2024, 2025, 2026]) := by
  constructor
  · intro lands keys crops hist p hp hvs
    constructor
    · refine ⟨⟨p.1, legumeVarsIn keys crops p.1 [2027, 2028, 2029], 1/10⟩,
        List.mem_flatMap.mpr ⟨p, hp, List.mem_append_right _ ?_⟩, rfl, rfl, rfl⟩
      cases hv : legumeVarsIn keys crops p.1 [2027, 2028, 2029] with
      | nil => exact absurd hv hvs
      | cons a t => simp [hv]
    · refine ⟨⟨p.1, legumeVarsIn keys crops p.1 [2027, 2028, 2029], 1/5⟩,
        List.mem_flatMap.mpr ⟨p, hp, List.mem_append_right _ ?_⟩, rfl, rfl, rfl⟩
      cases hv : legumeVarsIn keys crops p.1 [2027, 2028, 2029] with
      | nil => exact absurd hv hvs
      | cons a t => simp [hv]
  · intro lands keys crops hist con hcon k hk
    unfold q1LegumeCons at hcon
    rw [List.mem_filterMap] at hcon
    obtain ⟨p, hp, hf⟩ := hcon
    by_cases hh : hist.contains p.1 = true
    · rw [if_pos hh] at hf
      exact absurd hf (by simp)
    · rw [if_neg hh] at hf
      by_cases he : (legumeVarsIn keys crops p.1 [2024, 2025, 2026]).isEmpty = true
      · rw [if_pos he] at hf
        exact absurd hf (by simp)
      · rw [if_neg he] at hf
        have hco := Option.some.inj hf
        subst hco
        exact legumeVarsIn_year_mem keys crops p.1 [2024, 2025, 2026] k hk

/-- Witness for the amended C4 on the demo dataset. -/
theorem legume_rotation_amended_witness :
    ∃ con ∈ q2LegumeCons demoLands demoKeys demoCrops [],
      con.land = "A1" ∧
      con.vars = legumeVarsIn demoKeys demoCrops "A1" [2027, 2028, 2029] ∧
      con.minArea = 1/10 :=
  (legume_rotation_amended.1 demoLands demoKeys demoCrops []
    ("A1", ⟨"平旱地", 100⟩) (by decide) (by decide)).1

/-! ### C5: scenario-2 overproduction discount of the base variant -/

/-- Option lookup used by the base variant's objective, demand constraints and
    extraction (`next((o for o in self.viable_options if ...), None)`). -/
def findOpt (options : List PlantOption) (lands : LandTable) (k : VarKey) :
    Option PlantOption :=
  match List.lookup k.1 lands with
  | none => none
  | some li =>
      options.find? (fun o =>
        o.landType == li.ltype && o.season == k.2.2.1 && o.cropId == k.2.2.2)

/-- The per-row revenue computed during extraction in `solve_and_save`
    (Question1_modeling.py lines 410-421): scenario 1 caps sales at the
    reference demand; scenario 2 additionally sells the excess at half
    price. -/
def q1Revenue (scenario : Nat) (production expectedSale priceAvg : ℚ) : ℚ :=
  if scenario == 1 then ratMin production expectedSale * priceAvg
  else ratMin production expectedSale * priceAvg
    + ratMax 0 (production - expectedSale) * priceAvg * (1/2)

/-- A demand-ceiling constraint: sum of yield-weighted area terms bounded
    above. -/
structure DemandCon where
  terms : List (VarKey × ℚ)
  bound : ℚ
deriving DecidableEq

/-- The production terms of the base variant's demand constraint for one crop
    (Question1_modeling.py lines 248-257): every matching decision variable
    weighted by the option's yield per mu. -/
def q1DemandTerms (keys : List VarKey) (lands : LandTable)
    (options : List PlantOption) (cid : Nat) : List (VarKey × ℚ) :=
  modelYears.flatMap (fun y =>
    (["单季", "第一季", "第二季"] : List String).flatMap (fun s =>
      (keys.filter (fun k => k.2.1 == y && k.2.2.1 == s && k.2.2.2 == cid)).filterMap
        (fun k => (findOpt options lands k).map (fun o => (k, o.yieldPerMu)))))

/-- The base variant's demand constraint for one crop (lines 246-267): the
    yield-weighted production sum is bounded by 7x the reference demand in
    scenario 1 and 10x in scenario 2. -/
def q1DemandConFor (scenario : Nat) (keys : List VarKey) (lands : LandTable)
    (options : List PlantOption) (cid : Nat) (expectedSale : ℚ) : DemandCon :=
  ⟨q1DemandTerms keys lands options cid,
    if scenario == 1 then expectedSale * 7 else expectedSale * 10⟩

/-- C5.  In scenario 2 the extraction revenue is
    `min(production, demand) * price + max(0, production - demand) * price * 0.5`
    (scenario 1 has no discount term), while the model itself constrains the
    yield-weighted production sum by `10 * demand` (scenario 1: `7 * demand`):
    every coefficient of the demand constraint is an option yield, so the
    half-price discount appears in the extraction formula only, never in a
    constraint. -/
theorem overproduction_discount_scenario2 (production expectedSale priceAvg : ℚ)
    (keys : List VarKey) (lands : LandTable) (options : List PlantOption) (cid : Nat) :
    q1Revenue 2 production expectedSale priceAvg =
      min production expectedSale * priceAvg
        + max 0 (production - expectedSale) * priceAvg * (1/2) ∧
    q1Revenue 1 production expectedSale priceAvg =
      min production expectedSale * priceAvg ∧
    (q1DemandConFor 2 keys lands options cid expectedSale).bound = expectedSale * 10 ∧
    (q1DemandConFor 1 keys lands options cid expectedSale).bound = expectedSale * 7 ∧
    (∀ t ∈ (q1DemandConFor 2 keys lands options cid expectedSale).terms,
      ∃ o, findOpt options lands t.1 = some o ∧ t.2 = o.yieldPerMu) := by
  refine ⟨?_, ?_, rfl, rfl, ?_⟩
  · simp [q1Revenue, ratMin, ratMax, min_def, max_def]
  · simp [q1Revenue, ratMin, min_def]
  intro t ht
  have ht2 : t ∈ q1DemandTerms keys lands options cid := ht
  unfold q1DemandTerms at ht2
  rw [List.mem_flatMap] at ht2
  obtain ⟨y, -, ht3⟩ := ht2
  rw [List.mem_flatMap] at ht3
  obtain ⟨s, -, ht4⟩ := ht3
  rw [List.mem_filterMap] at ht4
  obtain ⟨k, -, hmap⟩ := ht4
  rw [Option.map_eq_some'] at hmap
  obtain ⟨o, ho, hto⟩ := hmap
  subst hto
  exact ⟨o, ho, rfl⟩

/-- Witness for C5: a concrete yield-weighted term of the scenario-2 demand
    constraint on the demo dataset. -/
theorem overproduction_discount_witness :
    ∃ o, findOpt (q1Catalog demoCrops demoRows) demoLands ("A1", 2024, "单季", 1) = some o ∧
      ((("A1", 2024, "单季", 1) : VarKey), (400 : ℚ)).2 = o.yieldPerMu :=
  (overproduction_discount_scenario2 0 1000 0 demoKeys demoLands
      (q1Catalog demoCrops demoRows) 1).2.2.2.2
    ((("A1", 2024, "单季", 1) : VarKey), (400 : ℚ)) (by decide)

/-! ### Advanced-variant coefficient records and category-keyed constants -/

/-- The per-(year, crop) coefficients of the advanced variant
    (`correlation_params`, Question3_modeling.py lines 399-406). -/
structure AdvParams where
  salesMult : ℚ
  yieldMult : ℚ
  costMult : ℚ
  priceMult : ℚ
  scaleEconomy : ℚ
  riskFactor : ℚ
deriving DecidableEq

/-- The `_calculate_scale_economy` coefficients (Question3_modeling.py lines 410-422). -/
def q3ScaleEconomyCoeff (c : CropRaw) : ℚ :=
  if q3Category c == "grain" || q3Category c == "rice" then 3/20
  else if q3Category c == "vegetable" || q3Category c == "winter_vegetable" then 1/10
  else if q3Category c == "mushroom" then 1/5
  else 1/20

/-- The `_calculate_risk_factor` coefficients (Question3_modeling.py lines 424-436). -/
def q3RiskFactor (c : CropRaw) : ℚ :=
  if q3Category c == "grain" || q3Category c == "rice" then 1/10
  else if q3Category c == "vegetable" || q3Category c == "winter_vegetable" then 1/5
  else if q3Category c == "mushroom" then 3/10
  else 3/20

/-- The `demand_elasticity` coefficients (Question3_modeling.py lines 339-349). -/
def demandElasticity (c : CropRaw) : ℚ :=
  if q3Category c == "grain" || q3Category c == "rice" then -(3/10)
  else if q3Category c == "vegetable" || q3Category c == "winter_vegetable" then -(4/5)
  else if q3Category c == "mushroom" then -(6/5)
  else -(1/2)

/-! ### C6: result extraction of the three variants -/

/-- Q1 `_get_crop_category` (Question1_modeling.py lines 583-597). -/
def q1GetCropCategory (c : CropRaw) : String :=
  if q1IsRice c then "水稻"
  else if q1IsGrain c then "粮食类"
  else if q1IsWinterVeg c then "冬季蔬菜"
  else if q1IsMushroom c then "食用菌"
  else if q1IsRegularVeg c then "普通蔬菜"
  else "其他"

/-- A result row emitted by the base variant's `solve_and_save` (lines
    426-439): the twelve output columns, with no constraint-check field. -/
structure Q1Row where
  year : Nat
  land : String
  landType : String
  season : String
  cropId : Nat
  cropName : String
  category : String
  area : ℚ
  production : ℚ
  cost : ℚ
  revenue : ℚ
  profit : ℚ
deriving DecidableEq

/-- Base-variant extraction of one solved decision (Question1_modeling.py
    lines 395-439): keep when the area exceeds 0.01 mu and the catalog lookup
    succeeds; revenue is scenario-dependent (`q1Revenue`). -/
def q1RowOf (scenario : Nat) (crops : CropTable) (lands : LandTable)
    (options : List PlantOption) (sales : List (Nat × ℚ)) (kv : VarKey × ℚ) :
    Option Q1Row :=
  if (1/100 : ℚ) < kv.2 then
    match List.lookup kv.1.1 lands with
    | none => none
    | some li =>
        match List.lookup kv.1.2.2.2 crops with
        | none => none
        | some c =>
            match findOpt options lands kv.1 with
            | none => none
            | some o =>
                let production := kv.2 * o.yieldPerMu
                let cost := kv.2 * o.costPerMu
                let expectedSale := (List.lookup kv.1.2.2.2 sales).getD 0
                let revenue := q1Revenue scenario production expectedSale o.priceAvg
                some ⟨kv.1.2.1, kv.1.1, li.ltype, kv.1.2.2.1, kv.1.2.2.2, c.name,
                  q1GetCropCategory c, kv.2, production, cost, revenue, revenue - cost⟩
  else none

/-- The base variant's emitted result rows. -/
def q1ExtractRows (scenario : Nat) (crops : CropTable) (lands : LandTable)
    (options : List PlantOption) (sales : List (Nat × ℚ))
    (sol : List (VarKey × ℚ)) : List Q1Row :=
  sol.filterMap (q1RowOf scenario crops lands options sales)

/-- Iterated product `q ^ n`, written recursively so that it evaluates inside
    the kernel; models the Python `**` on the drift rates. -/
def ratPow (q : ℚ) : Nat → ℚ
  | 0 => 1
  | n + 1 => ratPow q n * q

/-- Q2 `_calculate_expected_parameters` (Question2_modeling.py lines
    201-251): deterministic per-year drift multipliers. -/
def q2ExpectedParams (c : CropRaw) (year : Nat) : AdvParams :=
  let yb := year - 2023
  { salesMult := if (["小麦", "玉米"] : List String).contains c.name
      then ratPow (43/40) yb else 1
    yieldMult := 19/20
    costMult := ratPow (21/20) yb
    priceMult :=
      if q2IsGrainNonRice c || q2IsRice c then 1
      else if q2IsRegularVeg c || q2IsWinterVeg c then ratPow (21/20) yb
      else if q2IsMushroom c then
        (if c.name == "羊肚菌" then ratPow (19/20) yb else ratPow (97/100) yb)
      else 1
    scaleEconomy := 0
    riskFactor := 0 }

/-- Q2 `_get_crop_category_strict` (Question2_modeling.py lines 602-618). -/
def q2CropCategoryStrict (c : CropRaw) : String :=
  if q2IsRice c then "水稻"
  else if c.isLegume then "豆类"
  else if q2IsGrainNonRice c then "粮食类"
  else if q2IsWinterVeg c then "冬季蔬菜"
  else if q2IsMushroom c then "食用菌"
  else if q2IsRegularVeg c then "普通蔬菜"
  else "其他"

/-- Q2 `_check_strict_constraints` (Question2_modeling.py lines 620-625):
    the eligibility predicate re-run on an emitted row's triple, rendered as
    the 约束验证 cell. -/
def q2CheckStrict (landType season : String) (c : CropRaw) : String :=
  if q2Valid landType season c then "✅严格符合" else "❌违反约束"

/-- A result row emitted by the strict variant's `_extract_strict_results`
    (lines 579-593): the twelve output columns plus the 约束验证 check. -/
structure Q2Row where
  year : Nat
  land : String
  landType : String
  season : String
  cropId : Nat
  cropName : String
  category : String
  area : ℚ
  production : ℚ
  cost : ℚ
  revenue : ℚ
  profit : ℚ
  chk : String
deriving DecidableEq

/-- Strict-variant extraction of one solved decision (Question2_modeling.py
    lines 546-593). -/
def q2RowOf (crops : CropTable) (lands : LandTable) (options : List PlantOption)
    (kv : VarKey × ℚ) : Option Q2Row :=
  if (1/100 : ℚ) < kv.2 then
    match List.lookup kv.1.2.2.2 crops with
    | none => none
    | some c =>
        match List.lookup kv.1.1 lands with
        | none => none
        | some li =>
            match findOpt options lands kv.1 with
            | none => none
            | some o =>
                let p := q2ExpectedParams c kv.1.2.1
                let production := kv.2 * (o.yieldPerMu * p.yieldMult)
                let cost := kv.2 * (o.costPerMu * p.costMult)
                let revenue := production * (o.priceAvg * p.priceMult)
                let profit :=
                  if c.isLegume then revenue - cost + kv.2 * 100 else revenue - cost
                some ⟨kv.1.2.1, kv.1.1, li.ltype, kv.1.2.2.1, kv.1.2.2.2, c.name,
                  q2CropCategoryStrict c, kv.2, production, cost, revenue, profit,
                  q2CheckStrict li.ltype kv.1.2.2.1 c⟩
  else none

/-- The strict variant's emitted result rows. -/
def q2ExtractRows (crops : CropTable) (lands : LandTable)
    (options : List PlantOption) (sol : List (VarKey × ℚ)) : List Q2Row :=
  sol.filterMap (q2RowOf crops lands options)

/-- A result row emitted by the advanced variant's
    `_extract_advanced_results` (lines 1067-1083): economics plus scale,
    elasticity and risk adjustments, with no constraint-check field. -/
structure Q3Row where
  year : Nat
  land : String
  landType : String
  season : String
  cropId : Nat
  cropName : String
  category : String
  area : ℚ
  production : ℚ
  cost : ℚ
  revenue : ℚ
  profit : ℚ
  scaleEffectPct : ℚ
  elasticityPct : ℚ
  riskAdj : ℚ
deriving DecidableEq

/-- The scale-economy factor `1 - scale_economy * (area / 10)` of the
    advanced extraction (Question3_modeling.py line 1047). -/
def q3ScaleEffect (scaleEconomy area : ℚ) : ℚ := 1 - scaleEconomy * (area / 10)

/-- The reported cost `area * (expected_cost * scale_effect)` of the advanced
    extraction (lines 1048-1051). -/
def q3ReportedCost (area expectedCost scaleEconomy : ℚ) : ℚ :=
  area * (expectedCost * q3ScaleEffect scaleEconomy area)

/-- Advanced-variant extraction of one solved decision (Question3_modeling.py
    lines 1031-1083), given the per-(year, crop) coefficient table. -/
def q3RowOf (crops : CropTable) (lands : LandTable) (options : List PlantOption)
    (params : Nat → Nat → AdvParams) (kv : VarKey × ℚ) : Option Q3Row :=
  if (1/100 : ℚ) < kv.2 then
    match List.lookup kv.1.2.2.2 crops with
    | none => none
    | some c =>
        match List.lookup kv.1.1 lands with
        | none => none
        | some li =>
            match findOpt options lands kv.1 with
            | none => none
            | some o =>
                let p := params kv.1.2.1 kv.1.2.2.2
                let production := kv.2 * (o.yieldPerMu * p.yieldMult)
                let cost := q3ReportedCost kv.2 (o.costPerMu * p.costMult) p.scaleEconomy
                let priceEffect := 1 + demandElasticity c * (p.priceMult - 1) * (1/2)
                let revenue := production * (o.priceAvg * p.priceMult * priceEffect)
                let profit := revenue - cost
                let riskAdj := profit * p.riskFactor * (3/10)
                some ⟨kv.1.2.1, kv.1.1, li.ltype, kv.1.2.2.1, kv.1.2.2.2, c.name,
                  q3Category c, kv.2, production, cost, revenue, profit - riskAdj,
                  (1 - q3ScaleEffect p.scaleEconomy kv.2) * 100,
                  (priceEffect - 1) * 100, riskAdj⟩
  else none

/-- The advanced variant's emitted result rows. -/
def q3ExtractRows (crops : CropTable) (lands : LandTable)
    (options : List PlantOption) (params : Nat → Nat → AdvParams)
    (sol : List (VarKey × ℚ)) : List Q3Row :=
  sol.filterMap (q3RowOf crops lands options params)

/-- Reference demand for the demo dataset. -/
def demoSales : List (Nat × ℚ) := [(1, (1000 : ℚ))]

/-- A solved assignment for the demo dataset: 2 mu of crop 1 in 2024. -/
def demoSol : List (VarKey × ℚ) := [(("A1", 2024, "单季", 1), (2 : ℚ))]

/-- A concrete advanced-variant coefficient table for the demo crop. -/
def demoAdvTable : Nat → Nat → AdvParams := fun _ _ => ⟨1, 1, 1, 1, 3/20, 1/10⟩

/-- C6 counterexample.  On the demo dataset, the base and advanced variants
    emit result rows consisting solely of the economic columns - there is no
    field recording a re-evaluation of the eligibility predicate - while the
    strict variant's row carries the 约束验证 verdict.  The claim that every
    variant re-evaluates the predicate against each emitted row and flags
    mismatches in the output is therefore false for the base and advanced
    variants. -/
theorem validation_flag_counterexample :
    q1ExtractRows 1 demoCrops demoLands (q1Catalog demoCrops demoRows) demoSales demoSol
      = [⟨2024, "A1", "平旱地", "单季", 1, "黄豆", "粮食类", 2, 800, 1000, 2400, 1400⟩] ∧
    q3ExtractRows demoCrops demoLands (q3Catalog demoCrops demoRows) demoAdvTable demoSol
      = [⟨2024, "A1", "平旱地", "单季", 1, "黄豆", "grain", 2, 800, 970, 2400,
          13871/10, 3, 0, 429/10⟩] ∧
    q2ExtractRows demoCrops demoLands (q2Catalog demoCrops demoRows) demoSol
      = [⟨2024, "A1", "平旱地", "单季", 1, "黄豆", "豆类", 2, 760, 1050, 2280, 1430,
          "✅严格符合"⟩] := by decide

/-- C6 amended.  Only the strict variant re-evaluates the eligibility
    predicate against each emitted row: each of its rows carries the verdict
    of `_is_valid_strict_combination` on that row's own (land type, season,
    crop) triple, and a row is emitted purely on the area threshold and
    catalog lookup - the verdict never modifies or removes a row.  The base
    and advanced variants emit rows with no such verdict field. -/
theorem validation_selfcheck_amended :
    (∀ (crops : CropTable) (lands : LandTable) (options : List PlantOption)
        (sol : List (VarKey × ℚ)) (r : Q2Row),
        r ∈ q2ExtractRows crops lands options sol →
        ∃ c, List.lookup r.cropId crops = some c ∧
          r.chk = (if q2Valid r.landType r.season c then "✅严格符合" else "❌违反约束")) ∧
    (∀ (crops : CropTable) (lands : LandTable) (options : List PlantOption)
        (k : VarKey) (a : ℚ), (1/100 : ℚ) < a →
        ∀ c li o, List.lookup k.2.2.2 crops = some c → List.lookup k.1 lands = some li →
          findOpt options lands k = some o →
          (q2RowOf crops lands options (k, a)).isSome = true) := by
  constructor
  · intro crops lands options sol r hr
    unfold q2ExtractRows at hr
    rw [List.mem_filterMap] at hr
    obtain ⟨kv, -, hf⟩ := hr
    unfold q2RowOf at hf
    by_cases ha : (1/100 : ℚ) < kv.2
    · rw [if_pos ha] at hf
      cases hc : List.lookup kv.1.2.2.2 crops with
      | none => rw [hc] at hf; simp at hf
      | some c =>
          rw [hc] at hf
          cases hli : List.lookup kv.1.1 lands with
          | none => rw [hli] at hf; simp at hf
          | some li =>
              rw [hli] at hf
              cases ho : findOpt options lands kv.1 with
              | none => rw [ho] at hf; simp at hf
              | some o =>
                  rw [ho] at hf
                  have hrr := Option.some.inj hf
                  subst hrr
                  exact ⟨c, hc, rfl⟩
    · rw [if_neg ha] at hf
      simp at hf
  · intro crops lands options k a ha c li o hc hli ho
    unfold q2RowOf
    rw [if_pos ha]
    rw [show List.lookup (k, a).1.2.2.2 crops = some c from hc]
    rw [show List.lookup (k, a).1.1 lands = some li from hli]
    rw [show findOpt options lands (k, a).1 = some o from ho]
    rfl

/-- Witness for the amended C6 at the demo strict-variant row. -/
theorem validation_selfcheck_witness :
    ∃ c, List.lookup (1 : Nat) demoCrops = some c ∧
      ("✅严格符合" : String) =
        (if q2Valid "平旱地" "单季" c then "✅严格符合" else "❌违反约束") :=
  validation_selfcheck_amended.1 demoCrops demoLands (q2Catalog demoCrops demoRows) demoSol
    ⟨2024, "A1", "平旱地", "单季", 1, "黄豆", "豆类", 2, 760, 1050, 2280, 1430, "✅严格符合"⟩
    (by decide)

/-! ### C7: solve drivers and fallback policy -/

/-- Outcome of one solver invocation: a PuLP status string, or a raised
    exception. -/
inductive SolveOutcome where
  | finished (status : String)
  | raised
deriving DecidableEq

/-- Outcome of a whole run: extracted results, the failure value
    `(None, 0)`, or an exception propagated to the caller. -/
inductive RunResult where
  | results
  | failureZero
  | exception
deriving DecidableEq

/-- Python `status in ['Optimal', 'Feasible']`. -/
def okStatus (s : String) : Bool := (["Optimal", "Feasible"] : List String).contains s

/-- The base variant's relaxed demand ceiling (Question1_modeling.py line
    520): `expected_sale * 20`. -/
def q1RelaxedDemandCeiling (expectedSale : ℚ) : ℚ := expectedSale * 20

/-- The advanced variant's simplified-model demand ceiling
    (Question3_modeling.py line 944): `base_sales * sales_multiplier * 1.2`. -/
def q3SimplifiedDemandCeiling (baseSales salesMult : ℚ) : ℚ :=
  baseSales * salesMult * (6/5)

/-- The base variant's relaxed re-solve `_solve_relaxed_model` (lines
    460-534): solve the linear model; on a good status extract, otherwise
    return `(None, 0)`; an exception propagates (there is no try block). -/
def q1FallbackRun (relaxed : SolveOutcome) : RunResult :=
  match relaxed with
  | .raised => .exception
  | .finished s => if okStatus s then .results else .failureZero

/-- The base variant's `solve_and_save` control flow (lines 366-458): solve;
    on a good status extract, otherwise re-solve the relaxed model; an
    exception propagates uncaught. -/
def q1Drive (primary relaxed : SolveOutcome) : RunResult :=
  match primary with
  | .raised => .exception
  | .finished s => if okStatus s then .results else q1FallbackRun relaxed

/-- The strict variant's `solve_strict_model` control flow (Question2, lines
    511-532): solve inside try; on a good status extract, on any other
    status or exception return `(None, 0)`.  It consults no second model, so
    it takes no relaxed outcome at all. -/
def q2Drive (primary : SolveOutcome) : RunResult :=
  match primary with
  | .raised => .failureZero
  | .finished s => if okStatus s then .results else .failureZero

/-- The advanced variant's `_solve_simplified_model` (Question3, lines
    866-924): solve the simplified model inside try; on a good status
    extract, otherwise (or on exception) return `(None, 0)`. -/
def q3FallbackRun (relaxed : SolveOutcome) : RunResult :=
  match relaxed with
  | .raised => .failureZero
  | .finished s => if okStatus s then .results else .failureZero

/-- The advanced variant's `solve_advanced_model` control flow (lines
    837-864): solve inside try; on a good status extract, on any other
    status or on exception fall back to the simplified model. -/
def q3Drive (primary relaxed : SolveOutcome) : RunResult :=
  match primary with
  | .raised => q3FallbackRun relaxed
  | .finished s => if okStatus s then .results else q3FallbackRun relaxed

/-- C7 counterexample.  When the strict variant's primary solve reports
    Infeasible it returns the failure value immediately: it performs no
    relaxed re-solve (its driver does not even consult a second solve
    outcome), so a relaxed model that would have succeeded is never tried,
    refuting that the fallback recovery applies to each variant's builder. -/
theorem fallback_counterexample :
    q2Drive (.finished "Infeasible") = .failureZero ∧
    q2Drive .raised = .failureZero ∧
    q2Drive (.finished "Infeasible") ≠ .results ∧
    q1Drive (.finished "Infeasible") (.finished "Optimal") = .results ∧
    q3Drive (.finished "Infeasible") (.finished "Optimal") = .results := by decide

/-- C7 amended.  Fallback exists only in the base and advanced variants: on a
    non-optimal/infeasible primary status both re-solve a relaxed/simplified
    model and report `(None, 0)` if that also fails; the advanced variant
    additionally falls back when the primary solve raises, while the base
    variant propagates the exception; the strict variant always returns
    `(None, 0)` on failure with no second solve.  The base relaxed model
    loosens the demand ceiling to 20x the reference demand (twice the
    scenario-2 ceiling, not an order of magnitude), the advanced simplified
    model to 1.2x the drifted demand. -/
theorem fallback_policy_amended (s : String) (r : SolveOutcome)
    (hs : okStatus s = false) :
    q1Drive (.finished s) r = q1FallbackRun r ∧
    q1Drive .raised r = .exception ∧
    q2Drive (.finished s) = .failureZero ∧
    q2Drive .raised = .failureZero ∧
    q3Drive (.finished s) r = q3FallbackRun r ∧
    q3Drive .raised r = q3FallbackRun r ∧
    q3FallbackRun (.finished s) = .failureZero ∧
    q1FallbackRun (.finished s) = .failureZero ∧
    (∀ d : ℚ,
      q1RelaxedDemandCeiling d
        = 2 * (q1DemandConFor 2 [] [] [] 0 d).bound) := by
  refine ⟨?_, rfl, ?_, rfl, ?_, rfl, ?_, ?_, ?_⟩
  · simp [q1Drive, hs]
  · simp [q2Drive, hs]
  · simp [q3Drive, hs]
  · simp [q3FallbackRun, hs]
  · simp [q1FallbackRun, hs]
  · intro d
    show d * 20 = 2 * (d * 10)
    ring

/-- Witness for the amended C7 at a failing primary status. -/
theorem fallback_policy_witness :
    q1Drive (.finished "Infeasible") (.finished "Optimal")
      = q1FallbackRun (.finished "Optimal") :=
  (fallback_policy_amended "Infeasible" (.finished "Optimal") (by decide)).1

/-! ### C8: random drift coefficients of the advanced variant -/

/-- A `np.random.uniform(lo, hi)` draw expressed through a unit sample
    `u ∈ [0, 1]`. -/
def drawUniform (lo hi u : ℚ) : ℚ := lo + (hi - lo) * u

/-- One (crop, year) entry of `_calculate_correlation_parameters`
    (Question3_modeling.py lines 360-406), threading the stream index of the
    unit samples the generator consumes: wheat/corn skip the sales draw, the
    yield change always draws, and the price change draws only for
    grain/rice and non-羊肚菌 mushrooms. -/
def q3ParamsFor (c : CropRaw) (year : Nat) (u : Nat → ℚ) (i : Nat) :
    AdvParams × Nat :=
  let yb := year - 2023
  let sg :=
    if (["小麦", "玉米"] : List String).contains c.name then ((3/40 : ℚ), i)
    else (drawUniform (-(1/20)) (1/20) (u i), i + 1)
  let yc := (drawUniform (-(1/10)) (1/10) (u sg.2), sg.2 + 1)
  let pc :=
    if q3Category c == "grain" || q3Category c == "rice" then
      (drawUniform (-(1/50)) (1/50) (u yc.2), yc.2 + 1)
    else if q3Category c == "vegetable" || q3Category c == "winter_vegetable" then
      ((1/20 : ℚ), yc.2)
    else if q3Category c == "mushroom" then
      (if c.name == "羊肚菌" then ((-(1/20) : ℚ), yc.2)
       else (drawUniform (-(1/20)) (-(1/100)) (u yc.2), yc.2 + 1))
    else ((0 : ℚ), yc.2)
  (⟨ratPow (1 + sg.1) yb, 1 + yc.1, ratPow (21/20) yb, ratPow (1 + pc.1) yb,
    q3ScaleEconomyCoeff c, q3RiskFactor c⟩, pc.2)

/-- One year of the coefficient table: all crops in order. -/
def q3ParamsRow (crops : CropTable) (year : Nat) (u : Nat → ℚ) (i : Nat) :
    List (Nat × AdvParams) × Nat :=
  match crops with
  | [] => ([], i)
  | (cid, c) :: rest =>
      let hd := q3ParamsFor c year u i
      let tl := q3ParamsRow rest year u hd.2
      ((cid, hd.1) :: tl.1, tl.2)

/-- The year-indexed table, consuming the stream across years. -/
def q3TableAux (years : List Nat) (crops : CropTable) (u : Nat → ℚ) (i : Nat) :
    List (Nat × List (Nat × AdvParams)) :=
  match years with
  | [] => []
  | y :: ys =>
      let row := q3ParamsRow crops y u i
      (y, row.1) :: q3TableAux ys crops u row.2

/-- The table `self.correlation_params` as a function of the dataset and of the random
    unit-sample stream the unseeded numpy generator supplies. -/
def q3CorrelationTable (crops : CropTable) (u : Nat → ℚ) :
    List (Nat × List (Nat × AdvParams)) :=
  q3TableAux modelYears crops u 0

/-- C8.  The advanced variant's coefficient table is not a function of the
    input dataset alone: on the same demo dataset, two random streams (all
    draws at the lower bound vs all draws at midpoint) give different
    tables, so two runs on identical input differ unless the unseeded
    generator is fixed externally. -/
theorem advanced_params_nondeterministic :
    q3CorrelationTable demoCrops (fun _ => 0)
      ≠ q3CorrelationTable demoCrops (fun _ => 1/2) := by decide

/-! ### C9: the implicit big-M cap of the crop-indicator linkage -/

/-- The decision variables of one crop in one year across all parcels and
    seasons (`crop_vars`, Question2 lines 495-498, Question3 lines 717-720). -/
def cropVarsFor (keys : List VarKey) (year : Nat) (cid : Nat) : List VarKey :=
  keys.filter (fun k => k.2.1 == year && k.2.2.2 == cid)

/-- The value of a variable list under an assignment. -/
def sumAssign (x : VarKey → ℚ) (ks : List VarKey) : ℚ := (ks.map x).sum

/-- The strict variant's crop-indicator big-M constant (Question2 line 501:
    `lpSum(crop_vars) <= 1000 * crop_count_vars[crop_id]`). -/
def q2CropBigM : ℚ := 1000

/-- The advanced variant's crop-indicator big-M constant (Question3 line
    724: `lpSum(crop_vars) <= 1000 * z_crop[(year, crop_id)]`). -/
def q3CropBigM : ℚ := 1000

/-- C9.  Any assignment satisfying the strict or advanced variant's
    crop-indicator linkage with a binary indicator keeps the total planted
    area of each crop in each year at or below 1000 mu: the big-M constant
    1000 is an implicit area cap not derived from land area or demand. -/
theorem bigM_crop_area_cap (keys : List VarKey) (x : VarKey → ℚ) (z : ℚ)
    (year cid : Nat) (hz : z = 0 ∨ z = 1) :
    (sumAssign x (cropVarsFor keys year cid) ≤ q2CropBigM * z →
      sumAssign x (cropVarsFor keys year cid) ≤ 1000) ∧
    (sumAssign x (cropVarsFor keys year cid) ≤ q3CropBigM * z →
      sumAssign x (cropVarsFor keys year cid) ≤ 1000) := by
  rcases hz with rfl | rfl <;>
    (constructor <;> intro h <;> simp [q2CropBigM, q3CropBigM] at h <;> linarith)

/-- Witness for C9 at the all-zero assignment on the demo keys. -/
theorem bigM_crop_area_cap_witness :
    sumAssign (fun _ => (0:ℚ)) (cropVarsFor demoKeys 2024 1) ≤ 1000 :=
  (bigM_crop_area_cap demoKeys (fun _ => 0) 0 2024 1 (Or.inl rfl)).1 (by decide)

/-! ### C10: unguarded scale-economy cost adjustment -/

/-- C10.  In the advanced extraction the reported cost is
    `area * (base_cost * cost_multiplier) * (1 - scale_economy * area / 10)`;
    once the area exceeds `10 / scale_economy` the factor is negative, the
    reported cost is negative and the reported profit `revenue - cost`
    exceeds the revenue.  For a mushroom crop the coefficient is 0.2, so the
    factor is negative beyond 50 mu. -/
theorem scale_economy_negative_cost (area baseCost costMult se revenue : ℚ)
    (hse : 0 < se) (hcost : 0 < baseCost * costMult) (harea : 10 / se < area) :
    q3ReportedCost area (baseCost * costMult) se < 0 ∧
    revenue < revenue - q3ReportedCost area (baseCost * costMult) se ∧
    q3ScaleEconomyCoeff ⟨"香菇", "食用菌", false⟩ = 1/5 ∧
    (∀ a : ℚ, 50 < a → q3ScaleEffect (1/5) a < 0) := by
  have h1 : 10 < area * se := (div_lt_iff₀ hse).mp harea
  have hA : (0:ℚ) < area := lt_trans (div_pos (by norm_num) hse) harea
  have hSE : q3ScaleEffect se area < 0 := by
    unfold q3ScaleEffect
    nlinarith
  have hC : q3ReportedCost area (baseCost * costMult) se < 0 := by
    unfold q3ReportedCost
    exact mul_neg_of_pos_of_neg hA (mul_neg_of_pos_of_neg hcost hSE)
  refine ⟨hC, by linarith, by decide, ?_⟩
  intro a ha
  unfold q3ScaleEffect
  have : (1:ℚ) - 1/5 * (a/10) = 1 - a/50 := by ring
  rw [this]
  linarith

/-- Witness for C10: a 60 mu mushroom-rate decision has negative reported
    cost and profit above revenue. -/
theorem scale_economy_negative_cost_witness :
    q3ReportedCost 60 (1000 * 1) (1/5) < 0 ∧
    (0:ℚ) < 0 - q3ReportedCost 60 (1000 * 1) (1/5) := by
  have h := scale_economy_negative_cost 60 1000 1 (1/5) 0
    (by norm_num) (by norm_num) (by norm_num)
  exact ⟨h.1, h.2.1⟩
